/-
Verification of the SortingHat core data model and operations
(grimoirelab-sortinghat: `sortinghat/core/models.py` and
`sortinghat/core/schema.py`).

The Django models are embedded as Lean structures; database rows are lists
of records inside a `Store`.  Mutation operations whose implementation lives
in `sortinghat/core/api.py` (not part of the shown sources) are modelled
from the specification, and marked as such in their doc comments.
-/
import Mathlib

set_option autoImplicit false

namespace SortingHat

/-- A timezone-aware Python `datetime.datetime`; all datetimes in the models
are UTC (`tzinfo=dateutil.tz.tzutc()`), so the timezone is left implicit. -/
structure Datetime where
  year : Nat
  month : Nat
  day : Nat
  hour : Nat
  minute : Nat
  second : Nat
deriving DecidableEq, Repr

/-- Mixed-radix encoding of the datetime fields.  For datetimes whose
components are in range (1 ≤ month ≤ 12 < 13, 1 ≤ day ≤ 31 < 32, hour < 24,
minute < 60, second < 60 — which the Python `datetime` constructor enforces)
comparing keys coincides with the Python field-by-field lexicographic
comparison of datetimes. -/
def Datetime.key (d : Datetime) : Nat :=
  ((((d.year * 13 + d.month) * 32 + d.day) * 24 + d.hour) * 60 + d.minute) * 60 + d.second

/-- Strict order on datetimes (Python `<`). -/
def Datetime.ltb (a b : Datetime) : Bool :=
  a.key < b.key

/-- Non-strict order on datetimes (Python `<=`). -/
def Datetime.leb (a b : Datetime) : Bool :=
  a.key ≤ b.key

/-- Constant `MIN_PERIOD_DATE = datetime.datetime(1900, 1, 1, 0, 0, 0, tzinfo=tzutc())`. -/
def MIN_PERIOD_DATE : Datetime := ⟨1900, 1, 1, 0, 0, 0⟩

/-- Constant `MAX_PERIOD_DATE = datetime.datetime(2100, 1, 1, 0, 0, 0, tzinfo=tzutc())`. -/
def MAX_PERIOD_DATE : Datetime := ⟨2100, 1, 1, 0, 0, 0⟩

/-- Constant `MAX_SIZE_CHAR_INDEX = 191` (InnoDB/utf8mb4 indexable limit). -/
def MAX_SIZE_CHAR_INDEX : Nat := 191

/-- Constant `MAX_SIZE_CHAR_FIELD = 128`. -/
def MAX_SIZE_CHAR_FIELD : Nat := 128

/-- Typed errors of the Entity Store / operations API (spec §7). -/
inductive SHError where
  | NotFoundError
  | DuplicateEntityError
  | EqualIdentitiesError
  | InvalidValueError
  | InvalidPeriodError
deriving DecidableEq, Repr

/-- Model `Domain` (models.py): `domain`, `is_top_domain`, FK to
`Organization` with `on_delete=CASCADE`.  The FK is represented by the
unique organization `name`. -/
structure Domain where
  domain : String
  is_top_domain : Bool
  organization : String
deriving DecidableEq, Repr

/-- Model `Identity` (models.py): primary key `id`, nullable
`name`/`email`/`username`, `source`, FK `uidentity` (db column `uuid`)
with `on_delete=CASCADE`; `unique_together = (name, email, username, source)`. -/
structure Identity where
  id : String
  name : Option String
  email : Option String
  username : Option String
  source : String
  uuid : String
deriving DecidableEq, Repr

/-- Model `Profile` (models.py): one-to-one with `UniqueIdentity` (column
`uuid`), nullable curated fields, `is_bot` non-null, nullable FK `country`
(`on_delete=SET_NULL`). -/
structure Profile where
  uuid : String
  name : Option String
  email : Option String
  gender : Option String
  gender_acc : Option Nat
  is_bot : Bool
  country : Option String
deriving DecidableEq, Repr

/-- Model `Enrollment` (models.py): FKs to `UniqueIdentity` (column `uuid`)
and `Organization`, both `on_delete=CASCADE`; `start` defaults to
`MIN_PERIOD_DATE`, `end` to `MAX_PERIOD_DATE`;
`unique_together = (uidentity, organization, start, end)`. -/
structure Enrollment where
  uuid : String
  organization : String
  start : Datetime
  «end» : Datetime
deriving DecidableEq, Repr

/-- Model `Context` (models.py): primary key `cuid`, `operation` from a fixed
choice list, creation `timestamp`. -/
structure Context where
  cuid : String
  operation : String
  timestamp : Datetime
deriving DecidableEq, Repr

/-- Model `Transaction` (models.py): primary key `tuid`, `operation`,
`entity`, nullable FK `context` (db column `cuid`, `on_delete=SET_NULL`),
creation `timestamp`, binary `args`, plus the `created_at` timestamp every
model inherits from `ModelBase`.  The opaque `args` blob is kept as a
string. -/
structure Transaction where
  tuid : String
  operation : String
  entity : String
  context : Option String
  timestamp : Datetime
  args : String
  created_at : Datetime
deriving DecidableEq, Repr

/-- The Entity Store: one list of rows per table.  Organizations are
represented by their unique `name`, unique identities by their primary-key
`uuid`. -/
structure Store where
  organizations : List String
  domains : List Domain
  uidentities : List String
  identities : List Identity
  profiles : List Profile
  enrollments : List Enrollment
  contexts : List Context
  transactions : List Transaction
deriving DecidableEq, Repr

/-- Modelled from the spec: reading a unique identity by uuid
"fails with `NotFoundError` (referenced entity absent)" when the uuid is
not in the store (the read API is in `api.py`, which is not under the
shown sources). -/
def find_unique_identity (s : Store) (uuid : String) : Except SHError String :=
  if uuid ∈ s.uidentities then .ok uuid else .error .NotFoundError

/-- Modelled from the spec: the Profile-field merge of
`merge_unique_identities` — "merges Profile fields (non-null fields on `to`
are preserved; null fields are filled from `from` if present)".
`is_bot` is non-nullable, so the target value is kept. -/
def merge_profiles (pfrom pto : Profile) : Profile :=
  { pto with
    name := pto.name <|> pfrom.name,
    email := pto.email <|> pfrom.email,
    gender := pto.gender <|> pfrom.gender,
    gender_acc := pto.gender_acc <|> pfrom.gender_acc,
    country := pto.country <|> pfrom.country }

/-- Modelled from the spec: `merge_unique_identities(from_uuid, to_uuid)`
(implemented in `api.py`, not under the shown sources) — "re-parents all
Identities and Enrollments from `from_uuid` to `to_uuid`, merges Profile
fields, then deletes `from_uuid` and its Profile.  Fails with
`EqualIdentitiesError` if `from_uuid == to_uuid`, `NotFoundError` if either
is missing." -/
def merge_unique_identities (s : Store) (from_uuid to_uuid : String) :
    Except SHError Store :=
  if from_uuid = to_uuid then .error .EqualIdentitiesError
  else if from_uuid ∉ s.uidentities then .error .NotFoundError
  else if to_uuid ∉ s.uidentities then .error .NotFoundError
  else
    let pfrom? := s.profiles.find? (fun p => p.uuid == from_uuid)
    .ok { s with
      identities := s.identities.map
        (fun i => if i.uuid = from_uuid then { i with uuid := to_uuid } else i),
      enrollments := s.enrollments.map
        (fun e => if e.uuid = from_uuid then { e with uuid := to_uuid } else e),
      profiles := (s.profiles.filter (fun p => p.uuid != from_uuid)).map
        (fun p =>
          if p.uuid = to_uuid then
            match pfrom? with
            | some pf => merge_profiles pf p
            | none => p
          else p),
      uidentities := s.uidentities.filter (fun u => u != from_uuid) }

/-- The identifier of a raw identity, "typically a content hash of
name/email/username/source".  The exact hash does not matter for the
claims; any function of the 4-tuple models it. -/
def mkIdentityId (source : String) (name email username : Option String) :
    String :=
  source ++ ":" ++ name.getD "" ++ ":" ++ email.getD "" ++ ":" ++ username.getD ""

/-- An empty profile created alongside a fresh unique identity
(`is_bot` defaults to `False`, everything nullable is null). -/
def emptyProfile (uuid : String) : Profile :=
  ⟨uuid, none, none, none, none, false, none⟩

/-- Modelled from the spec: the attachment step of `add_identity` — "if a
target uuid is given, attaches to that UniqueIdentity (failing with
`NotFoundError` when absent), else creates a new one" (a fresh
single-identity cluster whose uuid is the id of the new identity) together with
its empty Profile. -/
def attachIdentity (s : Store) (id_ : String)
    (name email username : Option String) (source : String)
    (uuid : Option String) : Except SHError (Store × String) :=
  match uuid with
  | some u =>
    if u ∈ s.uidentities then
      .ok ({ s with
              identities := ⟨id_, name, email, username, source, u⟩ :: s.identities },
           id_)
    else .error .NotFoundError
  | none =>
    .ok ({ s with
            uidentities := id_ :: s.uidentities,
            identities := ⟨id_, name, email, username, source, id_⟩ :: s.identities,
            profiles := emptyProfile id_ :: s.profiles },
         id_)

/-- Modelled from the spec: `add_identity` / `create_identity(source, name?,
email?, username?, uuid?)` (implemented in `api.py`, not under the shown
sources) — "validates that at least one of name/email/username is non-empty;
fails with `DuplicateEntityError` if the (name,email,username,source) tuple
already exists; if a target uuid is given, attaches to that UniqueIdentity
(failing with `NotFoundError` when absent), else creates a new one" together
with its empty Profile.  Returns the id of the new identity. -/
def add_identity (s : Store) (source : String)
    (name email username : Option String) (uuid : Option String) :
    Except SHError (Store × String) :=
  if name = none ∧ email = none ∧ username = none then .error .InvalidValueError
  else if s.identities.any (fun i =>
      i.name == name && i.email == email && i.username == username &&
      i.source == source) then
    .error .DuplicateEntityError
  else
    attachIdentity s (mkIdentityId source name email username)
      name email username source uuid

/-- Modelled from the spec: `enroll(uuid, org_name, start?, end?)`
(implemented in `api.py`, not under the shown sources) — "creates an
Enrollment; defaults to full-range sentinel bounds when start/end omitted;
fails with `InvalidPeriodError` if `start > end`; an exact duplicate
interval for the same (uuid, org) fails with `DuplicateEntityError`"; the
default bounds are the model defaults `MIN_PERIOD_DATE`/`MAX_PERIOD_DATE`
declared in `models.py`. -/
def enroll (s : Store) (uuid org : String) (from_date to_date : Option Datetime) :
    Except SHError Store :=
  let start := from_date.getD MIN_PERIOD_DATE
  let «end» := to_date.getD MAX_PERIOD_DATE
  if uuid ∉ s.uidentities then .error .NotFoundError
  else if org ∉ s.organizations then .error .NotFoundError
  else if «end».ltb start then .error .InvalidPeriodError
  else if s.enrollments.any (fun e =>
      e.uuid == uuid && e.organization == org && e.start == start &&
      e.«end» == «end») then
    .error .DuplicateEntityError
  else .ok { s with enrollments := ⟨uuid, org, start, «end»⟩ :: s.enrollments }

/-- Modelled from the spec: the per-enrollment step of `withdraw` — "for
every existing enrollment E with [E.start, E.end] intersecting
[from_date, to_date]: if E is fully contained, delete it; if only one
boundary is inside, truncate E to the non-overlapping remainder; if the
withdrawal window is fully contained inside E, split E into two enrollments
bracketing the withdrawn gap". -/
def withdrawEnrollment (from_date to_date : Datetime) (e : Enrollment) :
    List Enrollment :=
  if e.«end».ltb from_date || to_date.ltb e.start then [e]
  else if from_date.leb e.start && e.«end».leb to_date then []
  else if e.start.ltb from_date && to_date.ltb e.«end» then
    [{ e with «end» := from_date }, { e with start := to_date }]
  else if e.start.ltb from_date then [{ e with «end» := from_date }]
  else [{ e with start := to_date }]

/-- Modelled from the spec: `withdraw(uuid, org_name, from_date?, to_date?)`
(implemented in `api.py`, not under the shown sources) — "removes/truncates
enrollments overlapping the given window (defaulting to the sentinel full
range)", applying `withdrawEnrollment` to every enrollment of the given
(uuid, organization) pair; missing entities fail with `NotFoundError`, an
inverted window with `InvalidPeriodError`. -/
def withdraw (s : Store) (uuid org : String)
    (from_date to_date : Option Datetime) : Except SHError Store :=
  let fd := from_date.getD MIN_PERIOD_DATE
  let td := to_date.getD MAX_PERIOD_DATE
  if uuid ∉ s.uidentities then .error .NotFoundError
  else if org ∉ s.organizations then .error .NotFoundError
  else if td.ltb fd then .error .InvalidPeriodError
  else .ok { s with enrollments :=
    s.enrollments.flatMap (fun e =>
      if e.uuid = uuid ∧ e.organization = org then withdrawEnrollment fd td e
      else [e]) }

/-- Modelled from the spec: `delete_organization(name)` — "straightforward
create/cascade-delete with uniqueness checks".  The cascade is declared in
`models.py`: `Domain.organization` and `Enrollment.organization` both have
`on_delete=CASCADE`, so deleting an organization deletes exactly the
domains and enrollments whose FK points at it. -/
def delete_organization (s : Store) (name : String) : Except SHError Store :=
  if name ∉ s.organizations then .error .NotFoundError
  else .ok { s with
    organizations := s.organizations.filter (fun o => o != name),
    domains := s.domains.filter (fun d => d.organization != name),
    enrollments := s.enrollments.filter (fun e => e.organization != name) }

/-- Deleting a `Context` row.  `Transaction.context` is declared in
`models.py` with `on_delete=SET_NULL`, so the Django delete removes the
context row and sets the `context` column of every transaction that
referenced it to NULL, touching nothing else. -/
def delete_context (s : Store) (cuid : String) : Store :=
  { s with
    contexts := s.contexts.filter (fun c => c.cuid != cuid),
    transactions := s.transactions.map (fun t =>
      if t.context = some cuid then { t with context := none } else t) }

/-- A `CharField` declaration of `models.py`: owning model class, field
name, declared `max_length`, and whether the field is a key — i.e. declared
`primary_key=True` or listed in `unique_together` of the model. -/
structure CharFieldSpec where
  entity : String
  field : String
  max_length : Nat
  is_key : Bool
deriving DecidableEq, Repr

/-- Every `CharField` declared in `models.py`, transcribed with its
`max_length` and key status.  Key fields are: `Organization.name`
(unique_together), `Domain.domain` (unique_together), `Country.code`
(primary key), `Country.alpha3` (unique_together), `UniqueIdentity.uuid`
(primary key), `Identity.id` (primary key), `Identity.name`/`email`/
`username`/`source` (unique_together), `MatchingBlacklist.excluded`
(primary key), `Context.cuid` and `Transaction.tuid` (primary keys). -/
def modelCharFields : List CharFieldSpec := [
  ⟨"Organization", "name", MAX_SIZE_CHAR_INDEX, true⟩,
  ⟨"Domain", "domain", MAX_SIZE_CHAR_FIELD, true⟩,
  ⟨"Country", "code", 2, true⟩,
  ⟨"Country", "name", MAX_SIZE_CHAR_INDEX, false⟩,
  ⟨"Country", "alpha3", 3, true⟩,
  ⟨"UniqueIdentity", "uuid", MAX_SIZE_CHAR_FIELD, true⟩,
  ⟨"Identity", "id", MAX_SIZE_CHAR_FIELD, true⟩,
  ⟨"Identity", "name", MAX_SIZE_CHAR_FIELD, true⟩,
  ⟨"Identity", "email", MAX_SIZE_CHAR_FIELD, true⟩,
  ⟨"Identity", "username", MAX_SIZE_CHAR_FIELD, true⟩,
  ⟨"Identity", "source", 32, true⟩,
  ⟨"Profile", "name", MAX_SIZE_CHAR_FIELD, false⟩,
  ⟨"Profile", "email", MAX_SIZE_CHAR_FIELD, false⟩,
  ⟨"Profile", "gender", 32, false⟩,
  ⟨"MatchingBlacklist", "excluded", MAX_SIZE_CHAR_FIELD, true⟩,
  ⟨"Context", "cuid", MAX_SIZE_CHAR_FIELD, true⟩,
  ⟨"Context", "operation", MAX_SIZE_CHAR_FIELD, false⟩,
  ⟨"Transaction", "tuid", MAX_SIZE_CHAR_FIELD, true⟩,
  ⟨"Transaction", "operation", MAX_SIZE_CHAR_FIELD, false⟩,
  ⟨"Transaction", "entity", MAX_SIZE_CHAR_FIELD, false⟩]

/-- The names `schema.py` imports from `.models`
(`from .models import (...)`, lines 47-55). -/
def schemaModelImports : List String :=
  ["Organization", "Domain", "Country", "UniqueIdentity", "Identity",
   "Profile", "Enrollment", "Transaction", "Operation"]

/-- The model classes actually defined in `models.py`. -/
def modelsDefinedClasses : List String :=
  ["CreationDateTimeField", "LastModificationDateTimeField", "ModelBase",
   "Organization", "Domain", "Country", "UniqueIdentity", "Identity",
   "Profile", "Enrollment", "MatchingBlacklist", "Context", "Transaction"]

/-- Errors the query layer can raise while resolving. -/
inductive QueryError where
  /-- Python `KeyError`: a dict lookup `filters[k]` on a missing key `k`. -/
  | keyError (k : String)
  /-- Django `FieldError`: `QuerySet.filter` on a field the model lacks. -/
  | fieldError (f : String)
  /-- Django `EmptyPage`/`PageNotAnInteger` from `Paginator.page`. -/
  | emptyPage
  /-- Django `Paginator` with a zero page size (division by zero). -/
  | invalidPageSize
deriving DecidableEq, Repr

/-- Record `PaginationType` (schema.py lines 65-73). -/
structure PaginationType where
  page : Nat
  page_size : Nat
  num_pages : Nat
  has_next : Bool
  has_prev : Bool
  start_index : Nat
  end_index : Nat
  total_results : Nat
deriving DecidableEq, Repr

/-- Django `Paginator.num_pages` with default options
(`orphans=0`, `allow_empty_first_page=True`):
`ceil(max(1, count) / per_page)`. -/
def paginatorNumPages (count per_page : Nat) : Nat :=
  (max 1 count + per_page - 1) / per_page

/-- Method `AbstractPaginatedType.create_paginated_result` (schema.py lines
165-184), over an abstract list of rows:  the Django `Paginator.page(page)`
raises (here: `emptyPage`) unless `1 ≤ page ≤ num_pages`; otherwise the
object list of the page is the corresponding slice, and the `PaginationType`
carries `has_next = page < num_pages`, `has_prev = page > 1`,
`start_index`/`end_index` as 1-based slice bounds (0 when empty), and
`total_results = len(query)`. -/
def create_paginated_result {α : Type} (query : List α) (page : Nat)
    (page_size : Nat) : Except QueryError (List α × PaginationType) :=
  if page_size = 0 then .error .invalidPageSize
  else if page < 1 ∨ paginatorNumPages query.length page_size < page then
    .error .emptyPage
  else
    .ok ((query.drop ((page - 1) * page_size)).take page_size,
      { page := page,
        page_size := page_size,
        num_pages := paginatorNumPages query.length page_size,
        has_next := decide (page < paginatorNumPages query.length page_size),
        has_prev := decide (1 < page),
        start_index :=
          if query.length = 0 then 0 else (page - 1) * page_size + 1,
        end_index :=
          if page = paginatorNumPages query.length page_size then query.length
          else page * page_size,
        total_results := query.length })

/-- Binding a success feeds the continuation. -/
theorem except_bind_ok {ε α β : Type} (a : α) (f : α → Except ε β) :
    (Except.ok a >>= f) = f a := rfl

/-- Binding an error short-circuits. -/
theorem except_bind_error {ε α β : Type} (e : ε) (f : α → Except ε β) :
    ((Except.error e : Except ε α) >>= f) = Except.error e := rfl

/-- The value of one GraphQL filter entry. -/
inductive FilterValue where
  | s (v : String)
  | b (v : Bool)
  | d (v : Datetime)
deriving DecidableEq, Repr

/-- A filters mapping, as the Python dict-like object the resolvers index
into: an association list from key to value (first binding wins). -/
def Filters : Type := List (String × FilterValue)

/-- Python `filters[k]`: the value at `k`, or a `KeyError`. -/
def dictGet (fs : Filters) (k : String) : Except QueryError FilterValue :=
  match List.lookup k fs with
  | some v => .ok v
  | none => .error (.keyError k)

/-- Python `k in filters`. -/
def dictHasKey (fs : Filters) (k : String) : Bool :=
  (List.lookup k fs).isSome

/-- The column names of the `transactions` table: the fields declared on
`Transaction` plus the two `ModelBase` timestamps.  `QuerySet.filter` on
any other name raises `FieldError`. -/
def transactionFieldNames : List String :=
  ["tuid", "operation", "entity", "context", "timestamp", "args",
   "created_at", "last_modified"]

/-- Whether column `field` of transaction `t` equals the filter value `v`
(equality comparison used by `QuerySet.filter(field=v)`). -/
def transactionFieldEq (t : Transaction) (field : String) (v : FilterValue) :
    Bool :=
  if field = "tuid" then v == .s t.tuid
  else if field = "operation" then v == .s t.operation
  else if field = "entity" then v == .s t.entity
  else if field = "args" then v == .s t.args
  else false

/-- Python `query.filter(field=v)` on a transaction queryset: Django resolves the
field name eagerly and raises `FieldError` when the model has no such
column; otherwise it keeps the matching rows. -/
def transactionFilterEq (field : String) (v : FilterValue)
    (q : List Transaction) : Except QueryError (List Transaction) :=
  if field ∈ transactionFieldNames then
    .ok (q.filter (fun t => transactionFieldEq t field v))
  else .error (.fieldError field)

/-- Python `query.filter(created_at__gte=v)` on a transaction queryset. -/
def transactionFilterCreatedAtGte (v : FilterValue) (q : List Transaction) :
    Except QueryError (List Transaction) :=
  match v with
  | .d dt => .ok (q.filter (fun t => dt.leb t.created_at))
  | _ => .error (.fieldError "created_at")

/-- Python `query.filter(created_at__lte=v)` on a transaction queryset. -/
def transactionFilterCreatedAtLte (v : FilterValue) (q : List Transaction) :
    Except QueryError (List Transaction) :=
  match v with
  | .d dt => .ok (q.filter (fun t => t.created_at.leb dt))
  | _ => .error (.fieldError "created_at")

/-- One conditional equality-filter line of a resolver:
`if memberKey in filters: query = query.filter(field=filters[readKey])`.
Python evaluates `filters[readKey]` (possibly a `KeyError`) before
`query.filter` runs. -/
def applyFilterStep (memberKey readKey field : String) (fs : Filters)
    (q : List Transaction) : Except QueryError (List Transaction) :=
  if dictHasKey fs memberKey then do
    let v ← dictGet fs readKey
    transactionFilterEq field v q
  else pure q

/-- Resolver `SortingHatQuery.resolve_transactions` (schema.py lines 452-471):
orders by `created_at`, applies the five conditional filters in source
order — note the third line reads membership of `is_closed` but indexes
the dict with `isClosed` — then paginates. -/
def resolve_transactions (txs : List Transaction) (filters : Option Filters)
    (page page_size : Nat) :
    Except QueryError (List Transaction × PaginationType) := do
  let query := txs.mergeSort (fun a b => a.created_at.leb b.created_at)
  let query ←
    match filters with
    | none => pure query
    | some fs => do
      let query ← applyFilterStep "tuid" "tuid" "tuid" fs query
      let query ← applyFilterStep "name" "name" "name" fs query
      let query ← applyFilterStep "is_closed" "isClosed" "is_closed" fs query
      let query ←
        if dictHasKey fs "from_date" then do
          let v ← dictGet fs "from_date"
          transactionFilterCreatedAtGte v query
        else pure query
      let query ←
        if dictHasKey fs "to_date" then do
          let v ← dictGet fs "to_date"
          transactionFilterCreatedAtLte v query
        else pure query
      pure query
  create_paginated_result query page page_size

/-- Sample store used by witnesses: one organization and one unique
identity, nothing else. -/
def sampleStore : Store :=
  { organizations := ["Acme"], domains := [], uidentities := ["u1"],
    identities := [], profiles := [], enrollments := [], contexts := [],
    transactions := [] }

/-- Claim C9: `schema.py` imports a model named `Operation` from `.models`
(used by `OperationType` and `resolve_operations`), but `models.py` defines
no `Operation` class — its provenance models are `Context` and
`Transaction` — so the `operations` query cannot resolve against the shown
data model. -/
theorem operations_model_missing :
    "Operation" ∈ schemaModelImports ∧ "Operation" ∉ modelsDefinedClasses ∧
    "Context" ∈ modelsDefinedClasses ∧ "Transaction" ∈ modelsDefinedClasses := by
  decide

/-- Counterexample to claim C7 as stated: `Country.name` is declared with
`max_length=MAX_SIZE_CHAR_INDEX` (191) although it is not a key field
(no `primary_key`, not in `unique_together`), so not every general text
field is constrained to 128 characters. -/
theorem char_field_length_claim_fails :
    (⟨"Country", "name", MAX_SIZE_CHAR_INDEX, false⟩ : CharFieldSpec) ∈ modelCharFields ∧
    ¬ (∀ f ∈ modelCharFields,
        f.is_key = false → f.max_length ≤ MAX_SIZE_CHAR_FIELD) := by
  decide

/-- Claim C7, amended: every char field of every stored entity is
constrained to at most 191 characters; every key field fits the
191-character index limit, and every non-key (general text) field fits 128
characters except `Country.name`, which is sized at the 191-character index
limit. -/
theorem char_field_length_amended :
    ∀ f ∈ modelCharFields,
      f.max_length ≤ MAX_SIZE_CHAR_INDEX ∧
      (f.is_key = false →
        (f.entity = "Country" ∧ f.field = "name") ∨
        f.max_length ≤ MAX_SIZE_CHAR_FIELD) := by
  decide

/-- Witness for `char_field_length_amended` at `Organization.name`. -/
theorem char_field_length_amended_witness :
    191 ≤ MAX_SIZE_CHAR_INDEX ∧
    ((true : Bool) = false →
      ("Organization" = "Country" ∧ "name" = "name") ∨ 191 ≤ MAX_SIZE_CHAR_FIELD) :=
  char_field_length_amended ⟨"Organization", "name", 191, true⟩ (by decide)

/-- Claim C5: an `enroll` call that omits both dates creates an Enrollment
whose start is 1900-01-01T00:00:00Z and whose end is 2100-01-01T00:00:00Z,
the fixed sentinel bounds. -/
theorem enroll_defaults_to_sentinel_bounds (s s' : Store) (uuid org : String)
    (h : enroll s uuid org none none = .ok s') :
    s'.enrollments =
      ⟨uuid, org, ⟨1900, 1, 1, 0, 0, 0⟩, ⟨2100, 1, 1, 0, 0, 0⟩⟩ :: s.enrollments := by
  unfold enroll at h
  simp only [Option.getD_none] at h
  split_ifs at h
  all_goals
    first
      | exact (Except.noConfusion h)
      | (simp only [Except.ok.injEq] at h
         subst h
         rfl)

/-- The store obtained by enrolling `u1` at `Acme` with default bounds. -/
def sampleEnrolled : Store :=
  { sampleStore with enrollments :=
      [⟨"u1", "Acme", ⟨1900, 1, 1, 0, 0, 0⟩, ⟨2100, 1, 1, 0, 0, 0⟩⟩] }

/-- Witness for `enroll_defaults_to_sentinel_bounds` on `sampleStore`. -/
theorem enroll_defaults_to_sentinel_bounds_witness :
    sampleEnrolled.enrollments =
      ⟨"u1", "Acme", ⟨1900, 1, 1, 0, 0, 0⟩, ⟨2100, 1, 1, 0, 0, 0⟩⟩ ::
        sampleStore.enrollments :=
  enroll_defaults_to_sentinel_bounds sampleStore sampleEnrolled "u1" "Acme" rfl

/-- Claim C4: deleting a Context deletes no Transaction — the transaction
count is unchanged and every transaction survives with its `tuid`,
`operation`, `entity`, `timestamp` and `args` intact, its `context`
back-reference nulled exactly when it pointed at the deleted context —
while the context row itself is gone. -/
theorem delete_context_keeps_transactions (s : Store) (cuid : String)
    (_h : ∃ t ∈ s.transactions, t.context = some cuid) :
    (delete_context s cuid).transactions.length = s.transactions.length ∧
    (∀ c ∈ (delete_context s cuid).contexts, c.cuid ≠ cuid) ∧
    ∀ t ∈ s.transactions,
      ({ t with context := if t.context = some cuid then none else t.context } :
          Transaction) ∈ (delete_context s cuid).transactions := by
  refine ⟨by simp [delete_context], ?_, ?_⟩
  · intro c hc
    simp only [delete_context, List.mem_filter] at hc
    simpa using hc.2
  · intro t ht
    simp only [delete_context]
    refine List.mem_map.mpr ⟨t, ht, ?_⟩
    by_cases hc : t.context = some cuid <;> simp [hc]

/-- A provenance context used by witnesses. -/
def sampleContext : Context := ⟨"c1", "enroll", ⟨2020, 1, 1, 0, 0, 0⟩⟩

/-- A transaction referencing `sampleContext`. -/
def sampleTransaction : Transaction :=
  ⟨"t1", "add", "enrollment", some "c1", ⟨2020, 1, 1, 0, 0, 0⟩, "a1",
   ⟨2020, 1, 1, 0, 0, 0⟩⟩

/-- A store holding `sampleContext` and `sampleTransaction`. -/
def auditStore : Store :=
  { organizations := [], domains := [], uidentities := [], identities := [],
    profiles := [], enrollments := [], contexts := [sampleContext],
    transactions := [sampleTransaction] }

/-- Witness for `delete_context_keeps_transactions` on `auditStore`. -/
theorem delete_context_keeps_transactions_witness :
    (delete_context auditStore "c1").transactions.length =
      auditStore.transactions.length ∧
    (∀ c ∈ (delete_context auditStore "c1").contexts, c.cuid ≠ "c1") ∧
    ∀ t ∈ auditStore.transactions,
      ({ t with context := if t.context = some "c1" then none else t.context } :
          Transaction) ∈ (delete_context auditStore "c1").transactions :=
  delete_context_keeps_transactions auditStore "c1"
    ⟨sampleTransaction, by decide, rfl⟩

/-- Claim C6: deleting an Organization also deletes every Domain and every
Enrollment that belongs to it (`on_delete=CASCADE` on both FKs), while
domains and enrollments of other organizations survive unchanged. -/
theorem delete_organization_cascades (s : Store) (name : String)
    (h : name ∈ s.organizations) :
    ∃ s', delete_organization s name = .ok s' ∧
      (∀ d ∈ s'.domains, d.organization ≠ name) ∧
      (∀ e ∈ s'.enrollments, e.organization ≠ name) ∧
      (∀ d ∈ s.domains, d.organization ≠ name → d ∈ s'.domains) ∧
      (∀ e ∈ s.enrollments, e.organization ≠ name → e ∈ s'.enrollments) := by
  refine ⟨{ s with
      organizations := s.organizations.filter (fun o => o != name),
      domains := s.domains.filter (fun d => d.organization != name),
      enrollments := s.enrollments.filter (fun e => e.organization != name) },
    ?_, ?_, ?_, ?_, ?_⟩
  · unfold delete_organization
    rw [if_neg (not_not_intro h)]
  · intro d hd
    simp only [List.mem_filter] at hd
    simpa using hd.2
  · intro e he
    simp only [List.mem_filter] at he
    simpa using he.2
  · intro d hd hne
    exact List.mem_filter.mpr ⟨hd, by simpa using hne⟩
  · intro e he hne
    exact List.mem_filter.mpr ⟨he, by simpa using hne⟩

/-- A store with two organizations, their domains and enrollments. -/
def twoOrgStore : Store :=
  { organizations := ["Acme", "Other"],
    domains := [⟨"acme.com", true, "Acme"⟩, ⟨"other.com", false, "Other"⟩],
    uidentities := ["u1"], identities := [], profiles := [],
    enrollments :=
      [⟨"u1", "Acme", ⟨2000, 1, 1, 0, 0, 0⟩, ⟨2005, 1, 1, 0, 0, 0⟩⟩,
       ⟨"u1", "Other", ⟨2000, 1, 1, 0, 0, 0⟩, ⟨2005, 1, 1, 0, 0, 0⟩⟩],
    contexts := [], transactions := [] }

/-- Witness for `delete_organization_cascades` on `twoOrgStore`. -/
theorem delete_organization_cascades_witness :
    ∃ s', delete_organization twoOrgStore "Acme" = .ok s' ∧
      (∀ d ∈ s'.domains, d.organization ≠ "Acme") ∧
      (∀ e ∈ s'.enrollments, e.organization ≠ "Acme") ∧
      (∀ d ∈ twoOrgStore.domains, d.organization ≠ "Acme" → d ∈ s'.domains) ∧
      (∀ e ∈ twoOrgStore.enrollments, e.organization ≠ "Acme" → e ∈ s'.enrollments) :=
  delete_organization_cascades twoOrgStore "Acme" (by decide)

/-- Claim C3: calling `add_identity` a second time with an identical
(name, email, username, source) tuple fails with `DuplicateEntityError`,
whatever target uuid either call used — the full 4-tuple can never be
registered twice. -/
theorem add_identity_twice_duplicate_error (s s1 : Store) (id1 : String)
    (source : String) (name email username : Option String)
    (uuid1 uuid2 : Option String)
    (hvalid : ¬ (name = none ∧ email = none ∧ username = none))
    (h1 : add_identity s source name email username uuid1 = .ok (s1, id1)) :
    add_identity s1 source name email username uuid2 =
      .error .DuplicateEntityError := by
  have hmem : s1.identities.any (fun i =>
      i.name == name && i.email == email && i.username == username &&
      i.source == source) = true := by
    unfold add_identity at h1
    split_ifs at h1
    unfold attachIdentity at h1
    split at h1
    · split_ifs at h1
      simp only [Except.ok.injEq, Prod.mk.injEq] at h1
      obtain ⟨hs, _⟩ := h1
      subst hs
      simp
    · simp only [Except.ok.injEq, Prod.mk.injEq] at h1
      obtain ⟨hs, _⟩ := h1
      subst hs
      simp
  unfold add_identity
  rw [if_neg hvalid, if_pos hmem]

/-- The empty store. -/
def emptyStore : Store := ⟨[], [], [], [], [], [], [], []⟩

/-- The store after `add_identity(emptyStore, "git", name="Alice")`. -/
def aliceStore : Store :=
  { emptyStore with
    uidentities := ["git:Alice::"],
    identities := [⟨"git:Alice::", some "Alice", none, none, "git", "git:Alice::"⟩],
    profiles := [emptyProfile "git:Alice::"] }

/-- Witness for `add_identity_twice_duplicate_error`: adding
("Alice", git) twice to the empty store fails the second time. -/
theorem add_identity_twice_duplicate_error_witness :
    add_identity aliceStore "git" (some "Alice") none none none =
      .error .DuplicateEntityError :=
  add_identity_twice_duplicate_error emptyStore aliceStore "git:Alice::" "git"
    (some "Alice") none none none none (by simp) rfl

/-- Claim C1: for distinct existing unique identities `A` and `B`,
`merge_identities(A, B)` succeeds, re-parents every raw Identity and every
Enrollment previously under `A` to `B`, deletes `A` and its Profile, and a
subsequent read of `A` fails with `NotFoundError`. -/
theorem merge_identities_reparents_and_deletes (s : Store) (A B : String)
    (hAB : A ≠ B) (hA : A ∈ s.uidentities) (hB : B ∈ s.uidentities) :
    ∃ s', merge_unique_identities s A B = .ok s' ∧
      find_unique_identity s' A = .error .NotFoundError ∧
      A ∉ s'.uidentities ∧
      (∀ i ∈ s.identities, i.uuid = A →
        ({ i with uuid := B } : Identity) ∈ s'.identities) ∧
      (∀ e ∈ s.enrollments, e.uuid = A →
        ({ e with uuid := B } : Enrollment) ∈ s'.enrollments) ∧
      (∀ p ∈ s'.profiles, p.uuid ≠ A) := by
  unfold merge_unique_identities
  rw [if_neg hAB, if_neg (not_not_intro hA), if_neg (not_not_intro hB)]
  refine ⟨_, rfl, ?_, ?_, ?_, ?_, ?_⟩
  · unfold find_unique_identity
    rw [if_neg]
    simp [List.mem_filter]
  · simp [List.mem_filter]
  · intro i hi hiA
    refine List.mem_map.mpr ⟨i, hi, ?_⟩
    rw [if_pos hiA]
  · intro e he heA
    refine List.mem_map.mpr ⟨e, he, ?_⟩
    rw [if_pos heA]
  · intro p hp
    simp only [List.mem_map, List.mem_filter] at hp
    obtain ⟨p0, ⟨_, hne⟩, hg⟩ := hp
    have hne' : p0.uuid ≠ A := by simpa using hne
    subst hg
    by_cases hb : p0.uuid = B
    · rw [if_pos hb]
      cases hfind : s.profiles.find? (fun p => p.uuid == A) with
      | none => exact hne'
      | some pf => simpa [merge_profiles] using hne'
    · rwa [if_neg hb]

/-- A store with two unique identities `ua`, `ub`, where `ua` owns one raw
identity, one enrollment and a profile. -/
def mergeStore : Store :=
  { organizations := ["Acme"],
    domains := [],
    uidentities := ["ua", "ub"],
    identities := [⟨"i1", some "Alice", none, none, "git", "ua"⟩],
    profiles := [⟨"ua", some "Alice", none, none, none, false, none⟩,
                 ⟨"ub", none, none, none, none, true, none⟩],
    enrollments := [⟨"ua", "Acme", ⟨2000, 1, 1, 0, 0, 0⟩, ⟨2005, 1, 1, 0, 0, 0⟩⟩],
    contexts := [], transactions := [] }

/-- Witness for `merge_identities_reparents_and_deletes` on `mergeStore`. -/
theorem merge_identities_reparents_and_deletes_witness :
    ∃ s', merge_unique_identities mergeStore "ua" "ub" = .ok s' ∧
      find_unique_identity s' "ua" = .error .NotFoundError ∧
      "ua" ∉ s'.uidentities ∧
      (∀ i ∈ mergeStore.identities, i.uuid = "ua" →
        ({ i with uuid := "ub" } : Identity) ∈ s'.identities) ∧
      (∀ e ∈ mergeStore.enrollments, e.uuid = "ua" →
        ({ e with uuid := "ub" } : Enrollment) ∈ s'.enrollments) ∧
      (∀ p ∈ s'.profiles, p.uuid ≠ "ua") :=
  merge_identities_reparents_and_deletes mergeStore "ua" "ub" (by decide)
    (by decide) (by decide)

/-- The enrollments a store holds for a (uuid, organization) pair, in
store order. -/
def enrollmentsOf (s : Store) (uuid org : String) : List Enrollment :=
  s.enrollments.filter (fun e => e.uuid == uuid && e.organization == org)

/-- A `flatMap` whose function vanishes off a filter is empty when the
filter selects nothing. -/
theorem flatMap_eq_nil_of_filter_nil {α β : Type} (l : List α) (p : α → Bool)
    (g : α → List β) (hg : ∀ a, p a = false → g a = [])
    (h : l.filter p = []) : l.flatMap g = [] := by
  induction l with
  | nil => rfl
  | cons a t ih =>
    rw [List.filter_cons] at h
    by_cases hp : p a = true
    · rw [if_pos hp] at h
      exact (List.noConfusion h)
    · rw [if_neg hp] at h
      rw [List.flatMap_cons, hg a (by simpa using hp), List.nil_append]
      exact ih h

/-- A `flatMap` whose function vanishes off a filter collapses to its value
at the single element the filter selects. -/
theorem flatMap_eq_of_filter_singleton {α β : Type} (l : List α) (p : α → Bool)
    (g : α → List β) (hg : ∀ a, p a = false → g a = []) (x : α)
    (h : l.filter p = [x]) : l.flatMap g = g x := by
  induction l with
  | nil => exact (List.noConfusion h)
  | cons a t ih =>
    rw [List.filter_cons] at h
    by_cases hp : p a = true
    · rw [if_pos hp] at h
      injection h with h1 h2
      subst h1
      rw [List.flatMap_cons,
          flatMap_eq_nil_of_filter_nil t p g hg h2, List.append_nil]
    · rw [if_neg hp] at h
      rw [List.flatMap_cons, hg a (by simpa using hp), List.nil_append]
      exact ih h

/-- Filtering distributes over `flatMap`. -/
theorem filter_flatMap_list {α β : Type} (l : List α) (g : α → List β)
    (p : β → Bool) :
    (l.flatMap g).filter p = l.flatMap (fun a => (g a).filter p) := by
  induction l with
  | nil => rfl
  | cons a t ih =>
    rw [List.flatMap_cons, List.flatMap_cons, List.filter_append, ih]

/-- Claim C2: withdrawing a window [sd, ed] strictly inside the single
enrollment [S, E] a (uuid, organization) pair has (S < sd < ed < E)
removes that enrollment and leaves exactly two enrollments for the pair:
one ending at sd and one starting at ed, bracketing the withdrawn gap. -/
theorem withdraw_inner_window_splits_enrollment (s : Store) (uuid org : String)
    (S E sd ed : Datetime)
    (hu : uuid ∈ s.uidentities) (ho : org ∈ s.organizations)
    (henr : enrollmentsOf s uuid org = [⟨uuid, org, S, E⟩])
    (h1 : S.ltb sd = true) (h2 : sd.ltb ed = true) (h3 : ed.ltb E = true) :
    ∃ s', withdraw s uuid org (some sd) (some ed) = .ok s' ∧
      enrollmentsOf s' uuid org =
        [⟨uuid, org, S, sd⟩, ⟨uuid, org, ed, E⟩] := by
  have k1 : S.key < sd.key := by simpa [Datetime.ltb] using h1
  have k2 : sd.key < ed.key := by simpa [Datetime.ltb] using h2
  have k3 : ed.key < E.key := by simpa [Datetime.ltb] using h3
  have hfx : withdrawEnrollment sd ed ⟨uuid, org, S, E⟩ =
      [⟨uuid, org, S, sd⟩, ⟨uuid, org, ed, E⟩] := by
    unfold withdrawEnrollment
    split_ifs with c1 c2 c3
    · simp only [Datetime.ltb, Datetime.leb, Bool.or_eq_true,
        decide_eq_true_eq] at c1
      omega
    · simp only [Datetime.ltb, Datetime.leb, Bool.and_eq_true,
        decide_eq_true_eq] at c2
      omega
    · rfl
    all_goals
      (simp only [Datetime.ltb, Datetime.leb, Bool.and_eq_true,
         decide_eq_true_eq, not_and, not_lt] at c3
       omega)
  unfold enrollmentsOf at henr
  unfold withdraw
  simp only [Option.getD_some]
  rw [if_neg (not_not_intro hu), if_neg (not_not_intro ho),
      if_neg (show ¬ (Datetime.ltb ed sd = true) by
        simp only [Datetime.ltb, decide_eq_true_eq, not_lt]
        omega)]
  refine ⟨_, rfl, ?_⟩
  unfold enrollmentsOf
  have hg : ∀ a : Enrollment,
      (a.uuid == uuid && a.organization == org) = false →
      ((if a.uuid = uuid ∧ a.organization = org then
          withdrawEnrollment sd ed a else [a]).filter
        (fun e => e.uuid == uuid && e.organization == org)) = [] := by
    intro a ha
    have hcond : ¬ (a.uuid = uuid ∧ a.organization = org) := by
      rintro ⟨x1, x2⟩
      rw [x1, x2] at ha
      simp at ha
    rw [if_neg hcond]
    simp [List.filter_cons, ha]
  rw [filter_flatMap_list]
  rw [flatMap_eq_of_filter_singleton _ _ _ hg ⟨uuid, org, S, E⟩ henr]
  rw [if_pos ⟨rfl, rfl⟩, hfx]
  simp

/-- A store where `u1` holds a single 2000-2010 enrollment at `Acme`. -/
def withdrawStore : Store :=
  { organizations := ["Acme"], domains := [], uidentities := ["u1"],
    identities := [], profiles := [],
    enrollments := [⟨"u1", "Acme", ⟨2000, 1, 1, 0, 0, 0⟩, ⟨2010, 1, 1, 0, 0, 0⟩⟩],
    contexts := [], transactions := [] }

/-- Witness for `withdraw_inner_window_splits_enrollment`: withdrawing
2002-2005 out of the 2000-2010 enrollment. -/
theorem withdraw_inner_window_splits_enrollment_witness :
    ∃ s', withdraw withdrawStore "u1" "Acme"
        (some ⟨2002, 1, 1, 0, 0, 0⟩) (some ⟨2005, 1, 1, 0, 0, 0⟩) = .ok s' ∧
      enrollmentsOf s' "u1" "Acme" =
        [⟨"u1", "Acme", ⟨2000, 1, 1, 0, 0, 0⟩, ⟨2002, 1, 1, 0, 0, 0⟩⟩,
         ⟨"u1", "Acme", ⟨2005, 1, 1, 0, 0, 0⟩, ⟨2010, 1, 1, 0, 0, 0⟩⟩] :=
  withdraw_inner_window_splits_enrollment withdrawStore "u1" "Acme"
    ⟨2000, 1, 1, 0, 0, 0⟩ ⟨2010, 1, 1, 0, 0, 0⟩
    ⟨2002, 1, 1, 0, 0, 0⟩ ⟨2005, 1, 1, 0, 0, 0⟩
    (by decide) (by decide) (by decide) (by decide) (by decide) (by decide)

/-- With a positive page size and a page of at least 1, the page number is
strictly below `paginatorNumPages` exactly when items remain beyond the
page. -/
theorem lt_paginatorNumPages_iff (count per_page page : Nat)
    (hpp : 0 < per_page) (hp : 1 ≤ page) :
    page < paginatorNumPages count per_page ↔ page * per_page < count := by
  unfold paginatorNumPages
  rw [Nat.lt_iff_add_one_le, Nat.le_div_iff_mul_le hpp]
  have hmul : (page + 1) * per_page = page * per_page + per_page := by ring
  rw [hmul]
  have hge : per_page ≤ page * per_page :=
    Nat.le_mul_of_pos_left per_page hp
  omega

/-- Claim C8: for every valid page of a paginated query result,
`create_paginated_result` reports `total_results` equal to the size of the
underlying query set, `has_next` exactly when items remain past the page,
and `has_prev` exactly when the page number exceeds 1. -/
theorem create_paginated_result_consistent {α : Type} (query : List α)
    (page page_size : Nat) (hps : 0 < page_size) (hp1 : 1 ≤ page)
    (hp2 : page ≤ paginatorNumPages query.length page_size) :
    ∃ ents info,
      create_paginated_result query page page_size = .ok (ents, info) ∧
      info.total_results = query.length ∧
      info.has_next = decide (page * page_size < query.length) ∧
      info.has_prev = decide (1 < page) ∧
      info.page = page ∧ info.page_size = page_size := by
  unfold create_paginated_result
  rw [if_neg (Nat.pos_iff_ne_zero.mp hps),
      if_neg (show ¬ (page < 1 ∨ paginatorNumPages query.length page_size < page) by
        rw [not_or]
        exact ⟨not_lt.mpr hp1, not_lt.mpr hp2⟩)]
  refine ⟨_, _, rfl, rfl, ?_, rfl, rfl, rfl⟩
  exact decide_eq_decide.mpr (lt_paginatorNumPages_iff _ _ _ hps hp1)

/-- Witness for `create_paginated_result_consistent`: the first page of
size 2 over a 3-element query set. -/
theorem create_paginated_result_consistent_witness :
    ∃ ents info,
      create_paginated_result [0, 1, 2] 1 2 = .ok (ents, info) ∧
      info.total_results = [0, 1, 2].length ∧
      info.has_next = decide (1 * 2 < [0, 1, 2].length) ∧
      info.has_prev = decide (1 < 1) ∧
      info.page = 1 ∧ info.page_size = 2 :=
  create_paginated_result_consistent [0, 1, 2] 1 2 (by decide) (by decide)
    (by decide)

/-- A filters mapping with a `name` key alongside `is_closed`. -/
def filtersWithName : Filters := [("name", .s "x"), ("is_closed", .b true)]

/-- Counterexample to claim C10 as stated: a filters mapping that contains
`is_closed` but not `isClosed` and also contains `name` makes
`resolve_transactions` fail on the earlier `name` filter line with a
`FieldError` — the `Transaction` model has no `name` column — not with a
missing-key lookup error. -/
theorem resolve_transactions_keyerror_claim_fails :
    dictHasKey filtersWithName "is_closed" = true ∧
    dictHasKey filtersWithName "isClosed" = false ∧
    resolve_transactions [] (some filtersWithName) 1 10 =
      .error (.fieldError "name") ∧
    resolve_transactions [] (some filtersWithName) 1 10 ≠
      .error (.keyError "isClosed") := by
  have hres : resolve_transactions [] (some filtersWithName) 1 10 =
      .error (.fieldError "name") := rfl
  refine ⟨rfl, rfl, hres, fun h => ?_⟩
  rw [hres] at h
  simp at h

/-- Claim C10, amended: for every transactions query whose filters mapping
contains the key `is_closed` but neither `isClosed` nor `name` (a `name`
entry makes the earlier filter line fail first, since `Transaction` has no
`name` column), `resolve_transactions` fails with a missing-key lookup
error on `isClosed` instead of returning a paginated result, because the
membership test uses `is_closed` while the value is read from `isClosed`. -/
theorem resolve_transactions_isClosed_keyerror (txs : List Transaction)
    (fs : Filters) (page page_size : Nat)
    (hin : dictHasKey fs "is_closed" = true)
    (hout : dictHasKey fs "isClosed" = false)
    (hname : dictHasKey fs "name" = false) :
    resolve_transactions txs (some fs) page page_size =
      .error (.keyError "isClosed") := by
  have hstep_name : ∀ q, applyFilterStep "name" "name" "name" fs q = .ok q := by
    intro q
    unfold applyFilterStep
    rw [if_neg (by simp [hname])]
    rfl
  have hstep_closed : ∀ q,
      applyFilterStep "is_closed" "isClosed" "is_closed" fs q =
        .error (.keyError "isClosed") := by
    intro q
    unfold applyFilterStep
    rw [if_pos hin]
    have hget : dictGet fs "isClosed" = .error (.keyError "isClosed") := by
      unfold dictGet
      have hnone : List.lookup "isClosed" fs = none := by
        unfold dictHasKey at hout
        exact Option.not_isSome_iff_eq_none.mp (by simp [hout])
      rw [hnone]
    rw [hget]
    rfl
  have hstep_tuid : ∀ q, ∃ q',
      applyFilterStep "tuid" "tuid" "tuid" fs q = .ok q' := by
    intro q
    unfold applyFilterStep
    by_cases ht : dictHasKey fs "tuid" = true
    · obtain ⟨v, hv⟩ : ∃ v, List.lookup "tuid" fs = some v := by
        unfold dictHasKey at ht
        exact Option.isSome_iff_exists.mp ht
      rw [if_pos ht]
      refine ⟨q.filter (fun t => transactionFieldEq t "tuid" v), ?_⟩
      unfold dictGet
      rw [hv]
      show transactionFilterEq "tuid" v q = _
      unfold transactionFilterEq
      rw [if_pos (show "tuid" ∈ transactionFieldNames by decide)]
    · rw [if_neg ht]
      exact ⟨q, rfl⟩
  obtain ⟨q1, hq1⟩ :=
    hstep_tuid (txs.mergeSort (fun a b => a.created_at.leb b.created_at))
  simp only [resolve_transactions]
  rw [hq1, except_bind_ok, hstep_name q1, except_bind_ok, hstep_closed q1,
      except_bind_error]

/-- A filters mapping holding only the `is_closed` key. -/
def filtersClosedOnly : Filters := [("is_closed", .b true)]

/-- Witness for `resolve_transactions_isClosed_keyerror` on a filters
mapping holding only `is_closed`. -/
theorem resolve_transactions_isClosed_keyerror_witness :
    resolve_transactions [] (some filtersClosedOnly) 1 10 =
      .error (.keyError "isClosed") :=
  resolve_transactions_isClosed_keyerror [] filtersClosedOnly 1 10 rfl rfl rfl

end SortingHat
